import Mathlib

/-!
Shallow embedding of `src/homework.py`: a fitness-tracker script with an
`InfoMessage` dataclass, a `Training` class hierarchy (`Running`,
`SportsWalking`, `Swimming`), a dispatch function `read_package` and a
hardcoded demo driver.  Python floats are modelled as exact rationals;
Python exceptions are modelled with `Except`; printed lines are returned
as explicit string lists.
-/

/-- Digits of a natural number in base 10, most significant first; used to
render the integer part of fixed-point formatting. -/
def natDecimal (n : Nat) : List Char :=
  if _h : n < 10 then [Nat.digitChar n]
  else natDecimal (n / 10) ++ [Nat.digitChar (n % 10)]
decreasing_by exact Nat.div_lt_self (by omega) (by omega)

/-- The three decimal digits of a fractional part `n < 1000` (hundreds,
tens, units), zero-padded, as the format specifier `.3f` renders it. -/
def frac3 (n : Nat) : List Char :=
  [Nat.digitChar (n / 100 % 10), Nat.digitChar (n / 10 % 10), Nat.digitChar (n % 10)]

/-- Fixed-point rendering of a rational with exactly three digits after the
decimal point: the meaning of the `.3f` format specifier used in the source
message template of `InfoMessage`. -/
def formatFixed3 (q : ℚ) : String :=
  let n : Int := round (q * 1000)
  let m : Nat := n.natAbs
  String.mk ((if n < 0 then ['-'] else []) ++ natDecimal (m / 1000) ++ ['.'] ++ frac3 (m % 1000))

/-- The string `s` consists of some prefix free of decimal points, a decimal
point, and exactly three point-free characters after it: fixed-point
notation with exactly three digits after the decimal point. -/
def threeDecimalFixed (s : String) : Prop :=
  ∃ a b : List Char,
    s.data = a ++ ['.'] ++ b ∧ b.length = 3 ∧
    (∀ c ∈ a, c ≠ '.') ∧ (∀ c ∈ b, c ≠ '.')

/-- Embedding of the dataclass `InfoMessage` (src/homework.py lines 5-21). -/
structure InfoMessage where
  training_type : String
  duration : ℚ
  distance : ℚ
  speed : ℚ
  calories : ℚ

/-- Embedding of `InfoMessage.get_message`: the source template
with each numeric field rendered by the `.3f` specifier. -/
def InfoMessage.get_message (m : InfoMessage) : String :=
  "Тип тренировки: " ++ m.training_type ++ "; Длительность: " ++ formatFixed3 m.duration ++
    " ч.; Дистанция: " ++ formatFixed3 m.distance ++ " км.; Ср. скорость: " ++
    formatFixed3 m.speed ++ " км/ч; Потрачено ккал: " ++ formatFixed3 m.calories ++ "."

/-- The `Training` class hierarchy as a sum type: `Running`, `SportsWalking`
(adds height), `Swimming` (adds pool length and count).  The abstract base
class itself is never instantiated by `read_package`. -/
inductive Training where
  | running (action duration weight : ℚ)
  | sportsWalking (action duration weight height : ℚ)
  | swimming (action duration weight length_pool count_pool : ℚ)

/-- Class constant `Training.M_IN_KM` (line 27). -/
def M_IN_KM : ℚ := 1000

/-- Class constant `Training.MIN_IN_HOUR` (line 28). -/
def MIN_IN_HOUR : ℚ := 60

/-- Class constant `Running.CALORIES_MEAN_SPEED_MULTIPLIER_RUNNING` (line 67). -/
def CALORIES_MEAN_SPEED_MULTIPLIER_RUNNING : ℚ := 18

/-- Class constant `Running.CALORIES_MEAN_SPEED_SHIFT_RUNNING` (line 68). -/
def CALORIES_MEAN_SPEED_SHIFT_RUNNING : ℚ := 1.79

/-- Class constant `SportsWalking.CALORIES_MEAN_SPEED_MULTIPLIER_WALKING`
(line 83); defined in the source but never used by any method. -/
def CALORIES_MEAN_SPEED_MULTIPLIER_WALKING : ℚ := 0.035

/-- Class constant `SportsWalking.CALORIES_MEAN_SPEED_SHIFT_WALKING` (line 84). -/
def CALORIES_MEAN_SPEED_SHIFT_WALKING : ℚ := 0.029

/-- Class constant `SportsWalking.KMH_IN_MS = 1000 / 3600` (line 85). -/
def KMH_IN_MS : ℚ := 1000 / 3600

/-- Class constant `SportsWalking.CM_IN_M` (line 86). -/
def CM_IN_M : ℚ := 100

/-- Class constant `Swimming.CALORIES_MEAN_SPEED_MULTIPLIER_SWIMMING` (line 113). -/
def CALORIES_MEAN_SPEED_MULTIPLIER_SWIMMING : ℚ := 1.1

/-- Class constant `Swimming.CALORIES_MEAN_SPEED_SHIFT_SWIMMING` (line 114). -/
def CALORIES_MEAN_SPEED_SHIFT_SWIMMING : ℚ := 2

/-- Attribute `self.action`. -/
def Training.action : Training → ℚ
  | .running a _ _ => a
  | .sportsWalking a _ _ _ => a
  | .swimming a _ _ _ _ => a

/-- Attribute `self.duration`. -/
def Training.duration : Training → ℚ
  | .running _ d _ => d
  | .sportsWalking _ d _ _ => d
  | .swimming _ d _ _ _ => d

/-- Attribute `self.weight`. -/
def Training.weight : Training → ℚ
  | .running _ _ w => w
  | .sportsWalking _ _ w _ => w
  | .swimming _ _ w _ _ => w

/-- Class constant `LEN_STEP`: `0.65` on the base class (line 26), overridden
to `1.38` by `Swimming` (line 112). -/
def Training.LEN_STEP : Training → ℚ
  | .swimming _ _ _ _ _ => 1.38
  | _ => 0.65

/-- Method `Training.get_distance` (lines 38-41); `Swimming.get_distance`
(lines 127-130) repeats the same body with its own `LEN_STEP`. -/
def Training.get_distance (t : Training) : ℚ :=
  t.action * t.LEN_STEP / M_IN_KM

/-- Method `Training.get_mean_speed` (lines 43-46), overridden by
`Swimming.get_mean_speed` (lines 132-136). -/
def Training.get_mean_speed (t : Training) : ℚ :=
  match t with
  | .swimming _ d _ lp cp => lp * cp / M_IN_KM / d
  | _ => t.get_distance / t.duration

/-- Method `get_spent_calories` of each subclass (lines 70-77, 96-106,
138-145).  Note: the walking branch multiplies the weight in the first
addend by `CALORIES_MEAN_SPEED_SHIFT_WALKING` (line 98), exactly as the
source does. -/
def Training.get_spent_calories (t : Training) : ℚ :=
  match t with
  | .running _ d w =>
      (CALORIES_MEAN_SPEED_MULTIPLIER_RUNNING * t.get_mean_speed
        + CALORIES_MEAN_SPEED_SHIFT_RUNNING) * w / M_IN_KM * (d * MIN_IN_HOUR)
  | .sportsWalking _ d w h =>
      (CALORIES_MEAN_SPEED_SHIFT_WALKING * w
        + ((t.get_mean_speed * KMH_IN_MS) ^ 2 / (h / CM_IN_M)
          * CALORIES_MEAN_SPEED_SHIFT_WALKING * w)) * (d * MIN_IN_HOUR)
  | .swimming _ d w _ _ =>
      (t.get_mean_speed + CALORIES_MEAN_SPEED_MULTIPLIER_SWIMMING)
        * CALORIES_MEAN_SPEED_SHIFT_SWIMMING * w * d

/-- Python `self.__class__.__name__` for each variant. -/
def Training.class_name : Training → String
  | .running _ _ _ => "Running"
  | .sportsWalking _ _ _ _ => "SportsWalking"
  | .swimming _ _ _ _ _ => "Swimming"

/-- Method `Training.show_training_info` (lines 52-61). -/
def Training.show_training_info (t : Training) : InfoMessage :=
  { training_type := t.class_name
    duration := t.duration
    distance := t.get_distance
    speed := t.get_mean_speed
    calories := t.get_spent_calories }

/-- Method call under explicit state passing: the source body of
`get_distance` reads attributes of `self` and assigns none, so the returned
object is (`self`) unchanged. -/
def Training.get_distance_st (t : Training) : ℚ × Training :=
  (t.get_distance, t)

/-- Stateful version of `get_mean_speed`; the body assigns no attribute. -/
def Training.get_mean_speed_st (t : Training) : ℚ × Training :=
  (t.get_mean_speed, t)

/-- Stateful version of `get_spent_calories`; the body assigns no attribute. -/
def Training.get_spent_calories_st (t : Training) : ℚ × Training :=
  (t.get_spent_calories, t)

/-- Two successive calls of a method on the same object, threading the
object state through: returns both results and the final state. -/
def callTwice (f : Training → ℚ × Training) (t : Training) : ℚ × ℚ × Training :=
  ((f t).1, (f (f t).2).1, (f (f t).2).2)

/-- Python runtime errors that can escape the modelled fragment. -/
inductive PyError where
  | typeError (msg : String)
  | attributeError (msg : String)
deriving DecidableEq

/-- Message of the `TypeError` raised when `cls(*data)` is called with the
wrong number of positional arguments. -/
def arityMsg (cls : String) : String :=
  "TypeError: wrong number of arguments to " ++ cls

/-- Python construction `Running(*data)`: succeeds exactly on three
positional values, otherwise raises a `TypeError`. -/
def Running.ofData : List ℚ → Except PyError Training
  | [a, d, w] => .ok (.running a d w)
  | _ => .error (.typeError (arityMsg "Running"))

/-- Python construction `SportsWalking(*data)`: succeeds exactly on four
positional values, otherwise raises a `TypeError`. -/
def SportsWalking.ofData : List ℚ → Except PyError Training
  | [a, d, w, h] => .ok (.sportsWalking a d w h)
  | _ => .error (.typeError (arityMsg "SportsWalking"))

/-- Python construction `Swimming(*data)`: succeeds exactly on five
positional values, otherwise raises a `TypeError`. -/
def Swimming.ofData : List ℚ → Except PyError Training
  | [a, d, w, lp, cp] => .ok (.swimming a d w lp cp)
  | _ => .error (.typeError (arityMsg "Swimming"))

/-- The string Python prints for a `KeyError` whose key is `s`: the key
surrounded by single quotes. -/
def keyRepr (s : String) : String :=
  String.singleton (Char.ofNat 39) ++ s ++ String.singleton (Char.ofNat 39)

/-- The line printed by `read_package` for an unknown workout type code
(line 159): the error message names the unrecognized code. -/
def unknown_type_message (workout_type : String) : String :=
  "Неизвестный вид тренировки " ++ keyRepr workout_type

/-- Function `read_package` (lines 148-159).  A successful dictionary lookup
followed by construction yields `ok (some training, no printed line)`; a
failed lookup raises `KeyError`, which the `except` clause catches, printing
the message and returning `None`, hence `ok (none, [message])`; a
`TypeError` from construction with the wrong arity is not caught and
propagates as `error`. -/
def read_package (workout_type : String) (data : List ℚ) :
    Except PyError (Option Training × List String) :=
  if workout_type = "SWM" then (Swimming.ofData data).map (fun t => (some t, []))
  else if workout_type = "RUN" then (Running.ofData data).map (fun t => (some t, []))
  else if workout_type = "WLK" then (SportsWalking.ofData data).map (fun t => (some t, []))
  else .ok (none, [unknown_type_message workout_type])

/-- Message of the `AttributeError` raised by `main` when `training` is
`None`: `None` has no `show_training_info` method. -/
def none_attribute_message : String :=
  "AttributeError: NoneType object has no attribute show_training_info"

/-- Function `main` (lines 162-165): calls `show_training_info` on its
argument and prints the resulting message; if the argument is `None` the
attribute access raises. -/
def Homework.main (training : Option Training) : Except PyError (List String) :=
  match training with
  | none => .error (.attributeError none_attribute_message)
  | some t => .ok [(t.show_training_info).get_message]

/-- The demo driver loop (lines 175-177) over an arbitrary package list:
for each entry run `read_package` then `main`, collecting printed lines;
an uncaught exception aborts the whole run. -/
def run_packages : List (String × List ℚ) → Except PyError (List String)
  | [] => .ok []
  | (workout_type, data) :: rest =>
      match read_package workout_type data with
      | .error e => .error e
      | .ok (tr, printed) =>
          match Homework.main tr with
          | .error e => .error e
          | .ok lines =>
              match run_packages rest with
              | .error e => .error e
              | .ok outs => .ok (printed ++ lines ++ outs)

/-- The hardcoded demo package list (lines 169-173). -/
def packages : List (String × List ℚ) :=
  [("SWM", [720, 1, 80, 25, 40]),
   ("RUN", [15000, 1, 75]),
   ("WLK", [9000, 1, 75, 180])]

/-- Walking-calorie formula exactly as the specification words it:
`(0.035 * weight + (mean_speed * 0.278)^2 / (height / 100) * 0.029 * weight)
* (duration * 60)`, reading `0.278` as the factor `1000/3600` the
specification says it stands for.  Stated for comparison with
`Training.get_spent_calories`. -/
def walking_calories_spec (weight_kg height_cm duration_hours mean_speed : ℚ) : ℚ :=
  (0.035 * weight_kg + (mean_speed * KMH_IN_MS) ^ 2 / (height_cm / 100) * 0.029 * weight_kg)
    * (duration_hours * 60)

/-- C2 counterexample: for Running with action 15000, duration 1, weight 75,
`get_spent_calories` returns `797.805`, not `798.0525` as the claim states;
indeed `(18 * 9.75 + 1.79) * 75 / 1000 * 60 = 797.805`, so the claimed
identity `(18*9.75+1.79)*75/1000*60 = 798.0525` is itself false. -/
theorem C2_calories_not_798_0525 :
    (Training.running 15000 1 75).get_spent_calories = 797.805 ∧
    (Training.running 15000 1 75).get_spent_calories ≠ 798.0525 := by
  constructor <;>
    norm_num [Training.get_distance, Training.get_mean_speed, Training.get_spent_calories,
      Training.action, Training.duration, Training.LEN_STEP, M_IN_KM, MIN_IN_HOUR,
      CALORIES_MEAN_SPEED_MULTIPLIER_RUNNING, CALORIES_MEAN_SPEED_SHIFT_RUNNING]

/-- C2 amended: for the Running calculator with action 15000, duration 1,
weight 75, `get_distance` and `get_mean_speed` both return exactly 9.75 and
`get_spent_calories` returns exactly `(18*9.75+1.79)*75/1000*60`, whose
exact value is `797.805`. -/
theorem C2_running_values :
    (Training.running 15000 1 75).get_distance = 9.75 ∧
    (Training.running 15000 1 75).get_mean_speed = 9.75 ∧
    (Training.running 15000 1 75).get_spent_calories = (18 * 9.75 + 1.79) * 75 / 1000 * 60 ∧
    (Training.running 15000 1 75).get_spent_calories = 797.805 := by
  refine ⟨?_, ?_, ?_, ?_⟩ <;>
    norm_num [Training.get_distance, Training.get_mean_speed, Training.get_spent_calories,
      Training.action, Training.duration, Training.LEN_STEP, M_IN_KM, MIN_IN_HOUR,
      CALORIES_MEAN_SPEED_MULTIPLIER_RUNNING, CALORIES_MEAN_SPEED_SHIFT_RUNNING]

/-- C1: at the Walking demo input (action 9000, duration 1, weight 75,
height 180) the source computes `321.9453125` — its first addend multiplies
the weight by `CALORIES_MEAN_SPEED_SHIFT_WALKING = 0.029`, leaving the
declared constant `CALORIES_MEAN_SPEED_MULTIPLIER_WALKING = 0.035` unused —
while the formula the claim states, with `0.035` in the first addend,
yields `348.9453125`; the two disagree. -/
theorem C1_walking_divergence :
    (Training.sportsWalking 9000 1 75 180).get_spent_calories = 321.9453125 ∧
    walking_calories_spec 75 180 1 ((Training.sportsWalking 9000 1 75 180).get_mean_speed)
      = 348.9453125 ∧
    (Training.sportsWalking 9000 1 75 180).get_spent_calories ≠
      walking_calories_spec 75 180 1 ((Training.sportsWalking 9000 1 75 180).get_mean_speed) := by
  refine ⟨?_, ?_, ?_⟩ <;>
    norm_num [Training.get_distance, Training.get_mean_speed, Training.get_spent_calories,
      Training.action, Training.duration, Training.LEN_STEP, M_IN_KM, MIN_IN_HOUR,
      CALORIES_MEAN_SPEED_SHIFT_WALKING, KMH_IN_MS, CM_IN_M, walking_calories_spec]

/-- C3: for every Swimming calculator with positive duration, the distance,
mean-speed and calorie formulas are exactly as the claim states, with
`mean_speed` the value of `get_mean_speed`. -/
theorem C3_swimming_formulas (a d w lp cp : ℚ) (hd : 0 < d) :
    (Training.swimming a d w lp cp).get_distance = a * 1.38 / 1000 ∧
    (Training.swimming a d w lp cp).get_mean_speed = lp * cp / 1000 / d ∧
    (Training.swimming a d w lp cp).get_spent_calories =
      ((Training.swimming a d w lp cp).get_mean_speed + 1.1) * 2 * w * d := by
  refine ⟨rfl, rfl, rfl⟩

/-- C3 witness: the Swimming demo input has positive duration and satisfies
the three formulas of `C3_swimming_formulas`. -/
theorem C3_swimming_witness :
    (Training.swimming 720 1 80 25 40).get_distance = 720 * 1.38 / 1000 ∧
    (Training.swimming 720 1 80 25 40).get_mean_speed = 25 * 40 / 1000 / 1 ∧
    (Training.swimming 720 1 80 25 40).get_spent_calories =
      ((Training.swimming 720 1 80 25 40).get_mean_speed + 1.1) * 2 * 80 * 1 :=
  C3_swimming_formulas 720 1 80 25 40 (by norm_num)

/-- C6: with non-negative action count, positive duration and, for Swimming,
positive pool length and non-negative pool count, `get_distance` and
`get_mean_speed` are non-negative for every variant. -/
theorem C6_distance_speed_nonneg (t : Training)
    (ha : 0 ≤ t.action) (hd : 0 < t.duration)
    (hsw : ∀ a d w lp cp, t = .swimming a d w lp cp → 0 < lp ∧ 0 ≤ cp) :
    0 ≤ t.get_distance ∧ 0 ≤ t.get_mean_speed := by
  have hdist : 0 ≤ t.get_distance := by
    rw [Training.get_distance, M_IN_KM]
    cases t <;>
      exact div_nonneg (mul_nonneg ha (by norm_num [Training.LEN_STEP])) (by norm_num)
  refine ⟨hdist, ?_⟩
  cases t with
  | swimming a d w lp cp =>
      obtain ⟨hlp, hcp⟩ := hsw a d w lp cp rfl
      rw [Training.get_mean_speed, M_IN_KM]
      have hd0 : (0:ℚ) ≤ d := le_of_lt hd
      exact div_nonneg (div_nonneg (mul_nonneg (le_of_lt hlp) hcp) (by norm_num)) hd0
  | running a d w =>
      exact div_nonneg hdist (le_of_lt hd)
  | sportsWalking a d w h =>
      exact div_nonneg hdist (le_of_lt hd)

/-- C6 witness: the Swimming demo input satisfies the hypotheses and the
non-negativity conclusions of `C6_distance_speed_nonneg`. -/
theorem C6_nonneg_witness :
    0 ≤ (Training.swimming 720 1 80 25 40).get_distance ∧
    0 ≤ (Training.swimming 720 1 80 25 40).get_mean_speed :=
  C6_distance_speed_nonneg (Training.swimming 720 1 80 25 40)
    (by norm_num [Training.action]) (by norm_num [Training.duration])
    (by intro a d w lp cp h; cases h; norm_num)

/-- C7: with the object state threaded explicitly, calling each of
`get_distance`, `get_mean_speed`, `get_spent_calories` twice on the same
Calculator returns the same result both times and leaves the object
exactly as it was: the methods are pure. -/
theorem C7_getters_pure (t : Training) :
    callTwice Training.get_distance_st t = (t.get_distance, t.get_distance, t) ∧
    callTwice Training.get_mean_speed_st t = (t.get_mean_speed, t.get_mean_speed, t) ∧
    callTwice Training.get_spent_calories_st t =
      (t.get_spent_calories, t.get_spent_calories, t) :=
  ⟨rfl, rfl, rfl⟩

/-- C8: `show_training_info` packages the record duration with the values of
the three getters, and the training type name is the variant class name:
Running, SportsWalking, Swimming. -/
theorem C8_show_training_info_fields (t : Training) :
    (t.show_training_info).duration = t.duration ∧
    (t.show_training_info).distance = t.get_distance ∧
    (t.show_training_info).speed = t.get_mean_speed ∧
    (t.show_training_info).calories = t.get_spent_calories ∧
    (t.show_training_info).training_type = t.class_name ∧
    (∀ a d w, (Training.running a d w).class_name = "Running") ∧
    (∀ a d w h, (Training.sportsWalking a d w h).class_name = "SportsWalking") ∧
    (∀ a d w lp cp, (Training.swimming a d w lp cp).class_name = "Swimming") :=
  ⟨rfl, rfl, rfl, rfl, rfl, fun _ _ _ => rfl, fun _ _ _ _ => rfl, fun _ _ _ _ _ => rfl⟩

/-- Construction of `Swimming` from a value list of the wrong length raises
a `TypeError`: the pattern match of `*data` unpacking fails. -/
theorem swimming_ofData_arity (data : List ℚ) (h : data.length ≠ 5) :
    Swimming.ofData data = .error (.typeError (arityMsg "Swimming")) := by
  match data, h with
  | [], _ => rfl
  | [a], _ => rfl
  | [a, b], _ => rfl
  | [a, b, c], _ => rfl
  | [a, b, c, d], _ => rfl
  | [a, b, c, d, e], h => exact absurd rfl h
  | a :: b :: c :: d :: e :: f :: rest, _ => rfl

/-- Construction of `Running` from a value list of the wrong length raises
a `TypeError`. -/
theorem running_ofData_arity (data : List ℚ) (h : data.length ≠ 3) :
    Running.ofData data = .error (.typeError (arityMsg "Running")) := by
  match data, h with
  | [], _ => rfl
  | [a], _ => rfl
  | [a, b], _ => rfl
  | [a, b, c], h => exact absurd rfl h
  | a :: b :: c :: d :: rest, _ => rfl

/-- Construction of `SportsWalking` from a value list of the wrong length
raises a `TypeError`. -/
theorem sportsWalking_ofData_arity (data : List ℚ) (h : data.length ≠ 4) :
    SportsWalking.ofData data = .error (.typeError (arityMsg "SportsWalking")) := by
  match data, h with
  | [], _ => rfl
  | [a], _ => rfl
  | [a, b], _ => rfl
  | [a, b, c], _ => rfl
  | [a, b, c, d], h => exact absurd rfl h
  | a :: b :: c :: d :: e :: rest, _ => rfl

/-- For a workout type code outside the dispatch dictionary, `read_package`
catches the `KeyError`, prints a message naming the code, and returns
`None`. -/
theorem read_package_unknown (workout_type : String) (data : List ℚ)
    (h1 : workout_type ≠ "SWM") (h2 : workout_type ≠ "RUN") (h3 : workout_type ≠ "WLK") :
    read_package workout_type data = .ok (none, [unknown_type_message workout_type]) := by
  rw [read_package, if_neg h1, if_neg h2, if_neg h3]

/-- C9: for each recognized code, a positional value list whose length does
not match the resolved arity (5 for SWM, 3 for RUN, 4 for WLK) makes
dispatch fail with a construction `TypeError` instead of truncating or
padding. -/
theorem C9_arity_mismatch (data : List ℚ) :
    (data.length ≠ 5 → read_package "SWM" data = .error (.typeError (arityMsg "Swimming"))) ∧
    (data.length ≠ 3 → read_package "RUN" data = .error (.typeError (arityMsg "Running"))) ∧
    (data.length ≠ 4 →
      read_package "WLK" data = .error (.typeError (arityMsg "SportsWalking"))) := by
  refine ⟨fun h => ?_, fun h => ?_, fun h => ?_⟩
  · rw [read_package, if_pos rfl, swimming_ofData_arity data h]; rfl
  · rw [read_package, if_neg (by decide), if_pos rfl, running_ofData_arity data h]; rfl
  · rw [read_package, if_neg (by decide), if_neg (by decide), if_pos rfl,
      sportsWalking_ofData_arity data h]
    rfl

/-- C9 witness: a two-value list mismatches the arity of all three codes and
indeed produces a `TypeError` for each. -/
theorem C9_arity_witness :
    read_package "SWM" [1, 2] = .error (.typeError (arityMsg "Swimming")) ∧
    read_package "RUN" [1, 2] = .error (.typeError (arityMsg "Running")) ∧
    read_package "WLK" [1, 2] = .error (.typeError (arityMsg "SportsWalking")) :=
  ⟨(C9_arity_mismatch [1, 2]).1 (by decide),
   (C9_arity_mismatch [1, 2]).2.1 (by decide),
   (C9_arity_mismatch [1, 2]).2.2 (by decide)⟩

/-- C10: for an unrecognized code, `read_package` produces no calculator at
all (it returns `None` after printing the error), and `main` applied to
that `None` result raises an `AttributeError`. -/
theorem C10_unknown_returns_none (workout_type : String) (data : List ℚ)
    (h1 : workout_type ≠ "SWM") (h2 : workout_type ≠ "RUN") (h3 : workout_type ≠ "WLK") :
    read_package workout_type data = .ok (none, [unknown_type_message workout_type]) ∧
    Homework.main none = .error (.attributeError none_attribute_message) :=
  ⟨read_package_unknown workout_type data h1 h2 h3, rfl⟩

/-- C10 witness: instance of `C10_unknown_returns_none` at the code XYZ. -/
theorem C10_unknown_witness :
    read_package "XYZ" [1] = .ok (none, [unknown_type_message "XYZ"]) ∧
    Homework.main none = .error (.attributeError none_attribute_message) :=
  C10_unknown_returns_none "XYZ" [1] (by decide) (by decide) (by decide)

/-- C4 counterexample: a driver run over an input list whose first entry has
the unknown code XYZ crashes with an `AttributeError` inside `main` and
never processes the subsequent RUN entry, contradicting the claim that the
driver does not crash and continues with subsequent inputs. -/
theorem C4_driver_crash_counterexample :
    run_packages [("XYZ", [1, 2, 3]), ("RUN", [15000, 1, 75])] =
      .error (.attributeError none_attribute_message) := rfl

/-- C4 amended: for an unrecognized code, dispatch reports an error naming
the code and yields no calculator; but a driver loop that reaches such an
input then crashes in `main` with an `AttributeError`, processing no
further inputs.  The hardcoded demo driver itself uses only recognized
codes and completes without error. -/
theorem C4_unknown_code_behavior (workout_type : String) (data : List ℚ)
    (rest : List (String × List ℚ))
    (h1 : workout_type ≠ "SWM") (h2 : workout_type ≠ "RUN") (h3 : workout_type ≠ "WLK") :
    read_package workout_type data = .ok (none, [unknown_type_message workout_type]) ∧
    run_packages ((workout_type, data) :: rest) =
      .error (.attributeError none_attribute_message) ∧
    ∃ outs, run_packages packages = .ok outs := by
  have hr := read_package_unknown workout_type data h1 h2 h3
  refine ⟨hr, ?_, ⟨_, rfl⟩⟩
  rw [run_packages, hr]
  rfl

/-- C4 witness: instance of `C4_unknown_code_behavior` at the code XYZ
followed by the RUN demo entry. -/
theorem C4_unknown_code_witness :
    read_package "XYZ" [1, 2, 3] = .ok (none, [unknown_type_message "XYZ"]) ∧
    run_packages [("XYZ", [1, 2, 3]), ("RUN", [15000, 1, 75])] =
      .error (.attributeError none_attribute_message) ∧
    ∃ outs, run_packages packages = .ok outs :=
  C4_unknown_code_behavior "XYZ" [1, 2, 3] [("RUN", [15000, 1, 75])]
    (by decide) (by decide) (by decide)

/-- Decimal digit characters are never the decimal point. -/
theorem digitChar_ne_dot : ∀ k, k < 10 → Nat.digitChar k ≠ ('.' : Char) := by decide

/-- No character of the base-10 rendering of a natural number is a decimal
point. -/
theorem natDecimal_ne_dot (n : Nat) : ∀ c ∈ natDecimal n, c ≠ ('.' : Char) := by
  induction n using Nat.strong_induction_on with
  | _ n ih =>
    intro c hc
    rw [natDecimal] at hc
    by_cases h : n < 10
    · rw [dif_pos h] at hc
      obtain rfl := List.mem_singleton.mp hc
      exact digitChar_ne_dot n h
    · rw [dif_neg h] at hc
      rcases List.mem_append.mp hc with h2 | h2
      · exact ih (n / 10) (Nat.div_lt_self (by omega) (by omega)) c h2
      · obtain rfl := List.mem_singleton.mp h2
        exact digitChar_ne_dot _ (Nat.mod_lt _ (by omega))

/-- No character of the three-digit fractional rendering is a decimal
point. -/
theorem frac3_ne_dot (n : Nat) : ∀ c ∈ frac3 n, c ≠ ('.' : Char) := by
  intro c hc
  simp only [frac3, List.mem_cons, List.not_mem_nil, or_false] at hc
  rcases hc with rfl | rfl | rfl <;>
    exact digitChar_ne_dot _ (Nat.mod_lt _ (by omega))

/-- The `.3f` rendering of any rational is fixed-point with exactly three
digits after the decimal point. -/
theorem formatFixed3_threeDecimal (q : ℚ) : threeDecimalFixed (formatFixed3 q) := by
  refine ⟨(if round (q * 1000) < 0 then ['-'] else []) ++
      natDecimal ((round (q * 1000)).natAbs / 1000),
    frac3 ((round (q * 1000)).natAbs % 1000), ?_, rfl, ?_, ?_⟩
  · simp [formatFixed3, List.append_assoc]
  · intro c hc
    rcases List.mem_append.mp hc with h2 | h2
    · by_cases hneg : round (q * 1000) < 0
      · rw [if_pos hneg] at h2
        obtain rfl := List.mem_singleton.mp h2
        decide
      · rw [if_neg hneg] at h2
        exact absurd h2 (List.not_mem_nil c)
    · exact natDecimal_ne_dot _ c h2
  · exact frac3_ne_dot _

/-- C5: the summary line substitutes each of the four numeric fields of the
`InfoMessage` through the `.3f` renderer, and that renderer always yields
fixed-point notation with exactly three digits after the decimal point,
whatever the magnitude of the value. -/
theorem C5_three_decimal_formatting (m : InfoMessage) :
    m.get_message =
      "Тип тренировки: " ++ m.training_type ++ "; Длительность: " ++
        formatFixed3 m.duration ++ " ч.; Дистанция: " ++ formatFixed3 m.distance ++
        " км.; Ср. скорость: " ++ formatFixed3 m.speed ++ " км/ч; Потрачено ккал: " ++
        formatFixed3 m.calories ++ "." ∧
    threeDecimalFixed (formatFixed3 m.duration) ∧
    threeDecimalFixed (formatFixed3 m.distance) ∧
    threeDecimalFixed (formatFixed3 m.speed) ∧
    threeDecimalFixed (formatFixed3 m.calories) :=
  ⟨rfl, formatFixed3_threeDecimal _, formatFixed3_threeDecimal _,
    formatFixed3_threeDecimal _, formatFixed3_threeDecimal _⟩
